import Mathlib

/-!
Verification of `flash/vision/backbones.py`: a lookup-and-dispatch utility
mapping a model-name string to a (feature-extractor, feature-width) pair,
drawing from two external model zoos (torchvision and pl_bolts).

The external libraries are modelled as environments (`TorchvisionEnv`,
`BoltsEnv`) supplying the observable behaviour of the calls the module
makes into them: `getattr(torchvision.models, name, None)`, model
construction, and checkpoint loading.  Networks are modelled by an
abstract module type `NNModule` supporting the attribute accesses the
source performs (`children()`, `in_features`, indexing, iteration).
-/

set_option autoImplicit false

/-- Abstract `torch.nn.Module` values, as far as the source observes them:
a module is either a linear-like layer carrying an `in_features` attribute,
a ReLU layer (`nn.ReLU(inplace=True)` is appended in the densenet branch),
an otherwise-opaque layer, or a `nn.Sequential` of child modules. -/
inductive NNModule where
  | linear (inFeatures : Nat) (outFeatures : Nat)
  | relu (inplace : Bool)
  | layer (tag : Nat)
  | sequential (children : List NNModule)

/-- Reading the `in_features` attribute of a module: present on
linear-like layers only. -/
def NNModule.inFeatures? : NNModule → Option Nat
  | .linear i _ => some i
  | _ => none

/-- Iterating a module (as in `*model.features`): yields the children of a
`Sequential`, fails otherwise. -/
def NNModule.childrenList? : NNModule → Option (List NNModule)
  | .sequential ms => some ms
  | _ => none

/-- Negative indexing `m[-1]` on a sequential module: its last child. -/
def NNModule.lastChild? (m : NNModule) : Option NNModule :=
  m.childrenList?.bind List.getLast?

/-- Python slice `l[:-2]`: everything but the last two elements
(the whole-list edge cases agree because `Nat` subtraction truncates). -/
def allButLastTwo (l : List NNModule) : List NNModule :=
  l.take (l.length - 2)

/-- The exception outcomes the source can raise: `ValueError`,
`MisconfigurationException`, and attribute/shape errors from introspecting
an external network object. -/
inductive PyError where
  | valueError (msg : String)
  | misconfigurationException (msg : String)
  | attributeError (msg : String)

/-- `ROOT_S3_BUCKET` (line 24). -/
def ROOT_S3_BUCKET : String := "https://pl-bolts-weights.s3.us-east-2.amazonaws.com"

/-- `MOBILENET_MODELS` (line 26). -/
def MOBILENET_MODELS : List String := ["mobilenet_v2"]

/-- `VGG_MODELS` (line 27). -/
def VGG_MODELS : List String := ["vgg11", "vgg13", "vgg16", "vgg19"]

/-- `RESNET_MODELS` (line 28). -/
def RESNET_MODELS : List String :=
  ["resnet18", "resnet34", "resnet50", "resnet101", "resnet152",
   "resnext50_32x4d", "resnext101_32x8d"]

/-- `DENSENET_MODELS` (line 29). -/
def DENSENET_MODELS : List String := ["densenet121", "densenet169", "densenet161"]

/-- `TORCHVISION_MODELS` (line 30): the umbrella table. -/
def TORCHVISION_MODELS : List String :=
  MOBILENET_MODELS ++ VGG_MODELS ++ RESNET_MODELS ++ DENSENET_MODELS

/-- `BOLTS_MODELS` (line 32). -/
def BOLTS_MODELS : List String := ["simclr-imagenet", "swav-imagenet"]

/-- The default checkpoint URL of `load_simclr_imagenet` (line 55). -/
def simclrDefaultCheckpoint : String :=
  ROOT_S3_BUCKET ++ "/simclr/bolts_simclr_imagenet/simclr_imagenet.ckpt"

/-- The default checkpoint URL of `load_swav_imagenet` (line 61). -/
def swavDefaultCheckpoint : String :=
  ROOT_S3_BUCKET ++ "/swav/swav_imagenet/swav_imagenet.pth.tar"

/-- The observable attributes of a constructed torchvision network, as far
as the source reads them: `children()`, `.features`, `.classifier`, `.fc`. -/
structure VisionNet where
  children : List NNModule
  features : NNModule
  classifier : NNModule
  fc : NNModule

/-- The torchvision library as the source observes it:
`getattr(torchvision.models, model_name, None)` yields either nothing or a
constructor, which, applied to the `pretrained` flag, yields a network. -/
structure TorchvisionEnv where
  getattrModels : String → Option (Bool → VisionNet)

/-- The pl_bolts library as the source observes it: the availability flag
`_BOLTS_AVAILABLE`, and the two checkpoint loaders.  A loader takes the
checkpoint URL and yields either an I/O failure (propagated unchanged) or
the list of children of the loaded model's encoder / inner model
(`list(simclr.encoder.children())`, `list(swav.model.children())`). -/
structure BoltsEnv where
  boltsAvailable : Bool
  loadSimclrEncoderChildren : String → Except PyError (List NNModule)
  loadSwavModelChildren : String → Except PyError (List NNModule)

/-- `bolts_backbone_and_num_features` (lines 45-76).  The availability
check (line 71) precedes the dict-membership check (line 73); the dict
`models` has exactly the keys `simclr-imagenet` and `swav-imagenet`.
Each loader truncates the last two children and pairs the resulting
`Sequential` with a hard-coded width (2048, resp. 3000). -/
def bolts_backbone_and_num_features (env : BoltsEnv) (model_name : String) :
    Except PyError (NNModule × Nat) :=
  if env.boltsAvailable = false then
    .error (.misconfigurationException
      "Bolts isn\x27t installed. Please, use ``pip install lightning-bolts``.")
  else if model_name = "simclr-imagenet" then
    match env.loadSimclrEncoderChildren simclrDefaultCheckpoint with
    | .error e => .error e
    | .ok cs => .ok (.sequential (allButLastTwo cs), 2048)
  else if model_name = "swav-imagenet" then
    match env.loadSwavModelChildren swavDefaultCheckpoint with
    | .error e => .error e
    | .ok cs => .ok (.sequential (allButLastTwo cs), 3000)
  else
    .error (.valueError (model_name ++ " is not supported yet."))

/-- `torchvision_backbone_and_num_features` (lines 79-111).  Registry
lookup first; then the three family branches in source order; the final
fall-through raises `ValueError`.  Attribute accesses on the constructed
network (`classifier[-1].in_features`, `fc.in_features`, iterating
`features`) are partial and surface as `attributeError` when the abstract
network lacks the expected shape. -/
def torchvision_backbone_and_num_features (env : TorchvisionEnv)
    (model_name : String) (pretrained : Bool) : Except PyError (NNModule × Nat) :=
  match env.getattrModels model_name with
  | none => .error (.misconfigurationException (model_name ++ " is not supported by torchvision"))
  | some ctor =>
    if model_name ∈ MOBILENET_MODELS ++ VGG_MODELS then
      let model := ctor pretrained
      match model.classifier.lastChild?.bind NNModule.inFeatures? with
      | none => .error (.attributeError "classifier[-1].in_features")
      | some num_features => .ok (model.features, num_features)
    else if model_name ∈ RESNET_MODELS then
      let model := ctor pretrained
      match model.fc.inFeatures? with
      | none => .error (.attributeError "fc.in_features")
      | some num_features => .ok (.sequential (allButLastTwo model.children), num_features)
    else if model_name ∈ DENSENET_MODELS then
      let model := ctor pretrained
      match model.features.childrenList?, model.classifier.inFeatures? with
      | some fs, some num_features =>
          .ok (.sequential (fs ++ [.relu true]), num_features)
      | _, _ => .error (.attributeError "features / classifier.in_features")
    else
      .error (.valueError (model_name ++ " is not supported yet."))

/-- `backbone_and_num_features` (lines 35-42).  The bolts-table check
precedes the torchvision-table check; the bolts call site passes only
`model_name`, the torchvision call site forwards the construction
arguments (abstracted as the `pretrained` flag). -/
def backbone_and_num_features (benv : BoltsEnv) (tenv : TorchvisionEnv)
    (model_name : String) (pretrained : Bool) : Except PyError (NNModule × Nat) :=
  if model_name ∈ BOLTS_MODELS then
    bolts_backbone_and_num_features benv model_name
  else if model_name ∈ TORCHVISION_MODELS then
    torchvision_backbone_and_num_features tenv model_name pretrained
  else
    .error (.valueError (model_name ++ " is not supported yet."))

/-- The dispatch behaviour of `backbone_and_num_features` (lines 35-42)
at the level of call sites: which family resolver is called and with which
extra construction arguments (`*args, **kwargs`, modelled as a list over
an arbitrary argument type). -/
inductive Dispatch (α : Type) where
  | toBolts (name : String) (args : List α)
  | toTorchvision (name : String) (args : List α)
  | unsupported (msg : String)

/-- Call-site view of `backbone_and_num_features` (lines 35-42): line 37
reads `bolts_backbone_and_num_features(model_name)` — no extra arguments
are passed — while line 40 reads
`torchvision_backbone_and_num_features(model_name, *args, **kwargs)`. -/
def backbone_dispatch {α : Type} (model_name : String) (args : List α) : Dispatch α :=
  if model_name ∈ BOLTS_MODELS then
    .toBolts model_name []
  else if model_name ∈ TORCHVISION_MODELS then
    .toTorchvision model_name args
  else
    .unsupported (model_name ++ " is not supported yet.")

/-- A bolts environment with the library absent; both loaders would fail,
which exhibits that the availability error does not depend on loading. -/
def boltsMissingEnv : BoltsEnv :=
  ⟨false, fun _ => Except.error (PyError.attributeError "io failure"),
   fun _ => Except.error (PyError.attributeError "io failure")⟩

/-- A bolts environment with the library present; each loader yields a
small concrete encoder child list. -/
def boltsSampleEnv : BoltsEnv :=
  ⟨true, fun _ => Except.ok [NNModule.layer 0, NNModule.layer 1, NNModule.linear 2048 128, NNModule.layer 2],
   fun _ => Except.ok [NNModule.layer 3, NNModule.layer 4, NNModule.linear 3000 17, NNModule.layer 5]⟩

/-- A concrete network shaped like torchvision `resnet18`: trailing
pooling and fully-connected children, `fc.in_features = 512`. -/
def resnet18Net : VisionNet :=
  ⟨[NNModule.layer 0, NNModule.layer 1, NNModule.layer 2, NNModule.layer 3,
    NNModule.layer 4, NNModule.linear 512 1000],
   NNModule.sequential [NNModule.layer 0],
   NNModule.sequential [NNModule.layer 9],
   NNModule.linear 512 1000⟩

/-- A concrete network shaped like torchvision `mobilenet_v2`: a
`features` sub-network and a classifier whose last layer has
`in_features = 1280`. -/
def mobilenetNet : VisionNet :=
  ⟨[NNModule.layer 0, NNModule.layer 1],
   NNModule.sequential [NNModule.layer 0, NNModule.layer 1],
   NNModule.sequential [NNModule.layer 2, NNModule.linear 1280 1000],
   NNModule.layer 0⟩

/-- A torchvision environment whose registry has `resnet18`,
`mobilenet_v2` and `googlenet` (the last outside the umbrella table),
and nothing else. -/
def tvSampleEnv : TorchvisionEnv :=
  ⟨fun name =>
    if name = "resnet18" then some (fun _ => resnet18Net)
    else if name = "mobilenet_v2" then some (fun _ => mobilenetNet)
    else if name = "googlenet" then some (fun _ => resnet18Net)
    else none⟩

/-- C1: `backbone_and_num_features` checks the bolts name set before the
torchvision umbrella set: membership in `BOLTS_MODELS` alone, with no
assumption about `TORCHVISION_MODELS`, sends the call to the bolts
resolver — so a name present in both tables resolves via the
self-supervised path — and a name in neither table is dispatched to
neither resolver. -/
theorem backbone_dispatch_bolts_first {α : Type} (name : String) (args : List α) :
    (name ∈ BOLTS_MODELS → backbone_dispatch name args = Dispatch.toBolts name []) ∧
    (name ∉ BOLTS_MODELS → name ∉ TORCHVISION_MODELS →
      backbone_dispatch name args = Dispatch.unsupported (name ++ " is not supported yet.")) := by
  refine ⟨fun h => ?_, fun h1 h2 => ?_⟩
  · simp [backbone_dispatch, h]
  · simp [backbone_dispatch, h1, h2]

/-- Witness for C1 at the concrete names `simclr-imagenet` and
`not-a-model`. -/
theorem backbone_dispatch_bolts_first_witness :
    backbone_dispatch "simclr-imagenet" ([] : List Nat) = Dispatch.toBolts "simclr-imagenet" [] ∧
    backbone_dispatch "not-a-model" ([] : List Nat) =
      Dispatch.unsupported ("not-a-model" ++ " is not supported yet.") :=
  ⟨(backbone_dispatch_bolts_first "simclr-imagenet" []).1 (by simp [BOLTS_MODELS]),
   (backbone_dispatch_bolts_first "not-a-model" []).2 (by simp [BOLTS_MODELS])
     (by simp [TORCHVISION_MODELS, MOBILENET_MODELS, VGG_MODELS, RESNET_MODELS, DENSENET_MODELS])⟩

/-- C2: a name in neither table makes `backbone_and_num_features` raise a
`ValueError` whose message is the name followed by a fixed suffix — in
particular the message contains the exact name string. -/
theorem backbone_and_num_features_unsupported (benv : BoltsEnv) (tenv : TorchvisionEnv)
    (name : String) (pretrained : Bool)
    (h1 : name ∉ BOLTS_MODELS) (h2 : name ∉ TORCHVISION_MODELS) :
    backbone_and_num_features benv tenv name pretrained =
      Except.error (PyError.valueError (name ++ " is not supported yet.")) ∧
    ∃ tail, name ++ " is not supported yet." = name ++ tail :=
  ⟨by simp [backbone_and_num_features, h1, h2], ⟨" is not supported yet.", rfl⟩⟩

/-- Witness for C2 at the concrete name `not-a-model`. -/
theorem backbone_and_num_features_unsupported_witness :
    backbone_and_num_features boltsSampleEnv tvSampleEnv "not-a-model" true =
      Except.error (PyError.valueError ("not-a-model" ++ " is not supported yet.")) ∧
    ∃ tail, "not-a-model" ++ " is not supported yet." = "not-a-model" ++ tail :=
  backbone_and_num_features_unsupported boltsSampleEnv tvSampleEnv "not-a-model" true
    (by simp [BOLTS_MODELS])
    (by simp [TORCHVISION_MODELS, MOBILENET_MODELS, VGG_MODELS, RESNET_MODELS, DENSENET_MODELS])

/-- C3: with bolts available and the checkpoint loads succeeding,
resolving `simclr-imagenet` yields width exactly 2048 and
`swav-imagenet` exactly 3000, whatever children the loaded networks
have: the width is a hard-coded constant paired with the truncated
`Sequential`, not computed from the network structure. -/
theorem bolts_widths_hardcoded (env : BoltsEnv) (cs ds : List NNModule)
    (hb : env.boltsAvailable = true)
    (hs : env.loadSimclrEncoderChildren simclrDefaultCheckpoint = Except.ok cs)
    (hw : env.loadSwavModelChildren swavDefaultCheckpoint = Except.ok ds) :
    bolts_backbone_and_num_features env "simclr-imagenet" =
      Except.ok (NNModule.sequential (allButLastTwo cs), 2048) ∧
    bolts_backbone_and_num_features env "swav-imagenet" =
      Except.ok (NNModule.sequential (allButLastTwo ds), 3000) := by
  constructor <;> simp [bolts_backbone_and_num_features, hb, hs, hw]

/-- Witness for C3 on a concrete bolts environment. -/
theorem bolts_widths_hardcoded_witness :
    bolts_backbone_and_num_features boltsSampleEnv "simclr-imagenet" =
      Except.ok (NNModule.sequential (allButLastTwo
        [NNModule.layer 0, NNModule.layer 1, NNModule.linear 2048 128, NNModule.layer 2]), 2048) ∧
    bolts_backbone_and_num_features boltsSampleEnv "swav-imagenet" =
      Except.ok (NNModule.sequential (allButLastTwo
        [NNModule.layer 3, NNModule.layer 4, NNModule.linear 3000 17, NNModule.layer 5]), 3000) :=
  bolts_widths_hardcoded boltsSampleEnv _ _ rfl rfl rfl

/-- C4: when bolts is unavailable, `bolts_backbone_and_num_features`
raises `MisconfigurationException` with an installation hint for either
recognized self-supervised name.  The environment's loaders are
universally quantified (including always-failing ones) and do not appear
in the result, so the error is raised before any checkpoint load. -/
theorem bolts_missing_misconfiguration (env : BoltsEnv) (name : String)
    (h : env.boltsAvailable = false) (hmem : name ∈ BOLTS_MODELS) :
    bolts_backbone_and_num_features env name =
      Except.error (PyError.misconfigurationException
        "Bolts isn\x27t installed. Please, use ``pip install lightning-bolts``.") := by
  simp [bolts_backbone_and_num_features, h]

/-- Witness for C4 on a concrete unavailable-bolts environment whose
loaders fail, at the name `simclr-imagenet`. -/
theorem bolts_missing_misconfiguration_witness :
    bolts_backbone_and_num_features boltsMissingEnv "simclr-imagenet" =
      Except.error (PyError.misconfigurationException
        "Bolts isn\x27t installed. Please, use ``pip install lightning-bolts``.") :=
  bolts_missing_misconfiguration boltsMissingEnv "simclr-imagenet" rfl (by simp [BOLTS_MODELS])

/-- Counterexample to C5: at the bolts name `simclr-imagenet` with the
nonempty construction-argument tuple `[0]`, the dispatcher calls the
bolts resolver with no arguments at all, not with `[0]` — the arguments
are not forwarded on the self-supervised path. -/
theorem backbone_dispatch_drops_bolts_args :
    backbone_dispatch "simclr-imagenet" [(0 : Nat)] = Dispatch.toBolts "simclr-imagenet" [] ∧
    backbone_dispatch "simclr-imagenet" [(0 : Nat)] ≠ Dispatch.toBolts "simclr-imagenet" [(0 : Nat)] := by
  constructor
  · simp [backbone_dispatch, BOLTS_MODELS]
  · simp [backbone_dispatch, BOLTS_MODELS]

/-- C5 (amended): construction arguments are forwarded verbatim on the
general-vision path; on the self-supervised path the resolver is called
with the model name only and the construction arguments are discarded. -/
theorem backbone_dispatch_forwarding {α : Type} (name : String) (args : List α) :
    (name ∉ BOLTS_MODELS → name ∈ TORCHVISION_MODELS →
      backbone_dispatch name args = Dispatch.toTorchvision name args) ∧
    (name ∈ BOLTS_MODELS → backbone_dispatch name args = Dispatch.toBolts name []) := by
  refine ⟨fun h1 h2 => ?_, fun h => ?_⟩
  · simp [backbone_dispatch, h1, h2]
  · simp [backbone_dispatch, h]

/-- Witness for the amended C5 at `resnet18` with arguments `[5]` and at
`swav-imagenet` with arguments `[5]`. -/
theorem backbone_dispatch_forwarding_witness :
    backbone_dispatch "resnet18" [(5 : Nat)] = Dispatch.toTorchvision "resnet18" [(5 : Nat)] ∧
    backbone_dispatch "swav-imagenet" [(5 : Nat)] = Dispatch.toBolts "swav-imagenet" [] :=
  ⟨(backbone_dispatch_forwarding "resnet18" [5]).1 (by simp [BOLTS_MODELS])
     (by simp [TORCHVISION_MODELS, MOBILENET_MODELS, VGG_MODELS, RESNET_MODELS, DENSENET_MODELS]),
   (backbone_dispatch_forwarding "swav-imagenet" [5]).2 (by simp [BOLTS_MODELS])⟩

/-- Counterexample to C6: with bolts unavailable, the unknown name
`not-a-model` fails with `MisconfigurationException` — a configuration
error, not the unsupported-model `ValueError` the claim requires — because
the availability check precedes the name check. -/
theorem bolts_unknown_name_counterexample :
    bolts_backbone_and_num_features boltsMissingEnv "not-a-model" =
      Except.error (PyError.misconfigurationException
        "Bolts isn\x27t installed. Please, use ``pip install lightning-bolts``.") ∧
    bolts_backbone_and_num_features boltsMissingEnv "not-a-model" ≠
      Except.error (PyError.valueError ("not-a-model" ++ " is not supported yet.")) := by
  constructor
  · rfl
  · simp [bolts_backbone_and_num_features, boltsMissingEnv]

/-- C6 (amended): when bolts is available, any name outside the two
recognized self-supervised names fails with the unsupported-model
`ValueError` naming it. -/
theorem bolts_unknown_name_valueError (env : BoltsEnv) (name : String)
    (hb : env.boltsAvailable = true) (hmem : name ∉ BOLTS_MODELS) :
    bolts_backbone_and_num_features env name =
      Except.error (PyError.valueError (name ++ " is not supported yet.")) := by
  simp [BOLTS_MODELS] at hmem
  simp [bolts_backbone_and_num_features, hb, hmem.1, hmem.2]

/-- Witness for the amended C6 at the name `not-a-model` on an
available-bolts environment. -/
theorem bolts_unknown_name_valueError_witness :
    bolts_backbone_and_num_features boltsSampleEnv "not-a-model" =
      Except.error (PyError.valueError ("not-a-model" ++ " is not supported yet.")) :=
  bolts_unknown_name_valueError boltsSampleEnv "not-a-model" rfl (by simp [BOLTS_MODELS])

/-- C7: for a residual-family name whose registry lookup succeeds, the
resolver returns the `Sequential` of all the constructed network's
children except the final two, paired with the `in_features` attribute of
the network's `fc` layer. -/
theorem torchvision_resnet_branch (env : TorchvisionEnv) (name : String)
    (pretrained : Bool) (ctor : Bool → VisionNet) (nf : Nat)
    (hname : name ∈ RESNET_MODELS)
    (hget : env.getattrModels name = some ctor)
    (hfc : (ctor pretrained).fc.inFeatures? = some nf) :
    torchvision_backbone_and_num_features env name pretrained =
      Except.ok (NNModule.sequential (allButLastTwo (ctor pretrained).children), nf) := by
  have hnot : name ∉ MOBILENET_MODELS ++ VGG_MODELS := by
    fin_cases hname <;> simp [MOBILENET_MODELS, VGG_MODELS]
  simp [torchvision_backbone_and_num_features, hget, hnot, hname, hfc]

/-- Witness for C7 at `resnet18` on a concrete registry whose network has
`fc.in_features = 512`. -/
theorem torchvision_resnet_branch_witness :
    torchvision_backbone_and_num_features tvSampleEnv "resnet18" true =
      Except.ok (NNModule.sequential (allButLastTwo resnet18Net.children), 512) :=
  torchvision_resnet_branch tvSampleEnv "resnet18" true (fun _ => resnet18Net) 512
    (by simp [RESNET_MODELS]) rfl rfl

/-- C8: for a mobile- or VGG-family name whose registry lookup succeeds,
the resolver returns the constructed network's `features` sub-network
unmodified, paired with the `in_features` attribute of the last layer of
its classifier head. -/
theorem torchvision_mobilenet_vgg_branch (env : TorchvisionEnv) (name : String)
    (pretrained : Bool) (ctor : Bool → VisionNet) (nf : Nat)
    (hname : name ∈ MOBILENET_MODELS ++ VGG_MODELS)
    (hget : env.getattrModels name = some ctor)
    (hcls : (ctor pretrained).classifier.lastChild?.bind NNModule.inFeatures? = some nf) :
    torchvision_backbone_and_num_features env name pretrained =
      Except.ok ((ctor pretrained).features, nf) := by
  simp [torchvision_backbone_and_num_features, hget, hname, hcls]

/-- Witness for C8 at `mobilenet_v2` on a concrete registry whose
network's classifier ends in a layer with `in_features = 1280`. -/
theorem torchvision_mobilenet_vgg_branch_witness :
    torchvision_backbone_and_num_features tvSampleEnv "mobilenet_v2" true =
      Except.ok (mobilenetNet.features, 1280) :=
  torchvision_mobilenet_vgg_branch tvSampleEnv "mobilenet_v2" true (fun _ => mobilenetNet) 1280
    (by simp [MOBILENET_MODELS, VGG_MODELS]) rfl rfl

/-- C9: when the registry lookup (`getattr` with default `None`) yields
nothing, the resolver fails with `MisconfigurationException` naming the
unsupported model; no constructor exists, so no network is constructed. -/
theorem torchvision_registry_miss (env : TorchvisionEnv) (name : String)
    (pretrained : Bool) (hget : env.getattrModels name = none) :
    torchvision_backbone_and_num_features env name pretrained =
      Except.error (PyError.misconfigurationException
        (name ++ " is not supported by torchvision")) := by
  simp [torchvision_backbone_and_num_features, hget]

/-- Witness for C9 at a name absent from the concrete registry. -/
theorem torchvision_registry_miss_witness :
    torchvision_backbone_and_num_features tvSampleEnv "not-a-model" true =
      Except.error (PyError.misconfigurationException
        ("not-a-model" ++ " is not supported by torchvision")) :=
  torchvision_registry_miss tvSampleEnv "not-a-model" true rfl

/-- Helper: on the mobile/VGG branch the result is a success, an
attribute error, or (on registry miss) a configuration error — never a
`ValueError`. -/
theorem torchvision_mobilenet_vgg_no_valueError (env : TorchvisionEnv) (name : String)
    (pretrained : Bool) (msg : String) (hname : name ∈ MOBILENET_MODELS ++ VGG_MODELS) :
    torchvision_backbone_and_num_features env name pretrained ≠
      Except.error (PyError.valueError msg) := by
  unfold torchvision_backbone_and_num_features
  cases hget : env.getattrModels name with
  | none => simp
  | some ctor =>
    cases hopt : (ctor pretrained).classifier.lastChild?.bind NNModule.inFeatures? <;>
      simp [hname, hopt]

/-- Helper: on the residual branch the result is never a `ValueError`. -/
theorem torchvision_resnet_no_valueError (env : TorchvisionEnv) (name : String)
    (pretrained : Bool) (msg : String) (hname : name ∈ RESNET_MODELS) :
    torchvision_backbone_and_num_features env name pretrained ≠
      Except.error (PyError.valueError msg) := by
  have hnot : name ∉ MOBILENET_MODELS ++ VGG_MODELS := by
    fin_cases hname <;> simp [MOBILENET_MODELS, VGG_MODELS]
  unfold torchvision_backbone_and_num_features
  cases hget : env.getattrModels name with
  | none => simp
  | some ctor =>
    cases hopt : (ctor pretrained).fc.inFeatures? <;>
      simp [hname, hnot, hopt]

/-- Helper: on the densely-connected branch the result is never a
`ValueError`. -/
theorem torchvision_densenet_no_valueError (env : TorchvisionEnv) (name : String)
    (pretrained : Bool) (msg : String) (hname : name ∈ DENSENET_MODELS) :
    torchvision_backbone_and_num_features env name pretrained ≠
      Except.error (PyError.valueError msg) := by
  have h1 : name ∉ MOBILENET_MODELS ++ VGG_MODELS := by
    fin_cases hname <;> simp [MOBILENET_MODELS, VGG_MODELS]
  have h2 : name ∉ RESNET_MODELS := by
    fin_cases hname <;> simp [RESNET_MODELS]
  unfold torchvision_backbone_and_num_features
  cases hget : env.getattrModels name with
  | none => simp
  | some ctor =>
    cases hf : (ctor pretrained).features.childrenList? with
    | none =>
      cases hc : (ctor pretrained).classifier.inFeatures? <;>
        simp [hname, h1, h2, hf, hc]
    | some fs =>
      cases hc : (ctor pretrained).classifier.inFeatures? <;>
        simp [hname, h1, h2, hf, hc]

/-- Helper: every umbrella-table name lies in one of the three branch
tables tested by `torchvision_backbone_and_num_features`. -/
theorem torchvision_table_split (name : String) (h : name ∈ TORCHVISION_MODELS) :
    name ∈ MOBILENET_MODELS ++ VGG_MODELS ∨ name ∈ RESNET_MODELS ∨ name ∈ DENSENET_MODELS := by
  simp only [TORCHVISION_MODELS, List.mem_append] at h ⊢
  tauto

/-- C10: every name in the umbrella table matches one of the three family
branches, so the final fall-through `ValueError` of
`torchvision_backbone_and_num_features` is unreachable for names
dispatched from the table; conversely, whenever the fall-through fires,
the name is outside the umbrella table and the registry lookup nonetheless
succeeded. -/
theorem torchvision_fallthrough_unreachable :
    (∀ (env : TorchvisionEnv) (name : String) (pretrained : Bool),
      name ∈ TORCHVISION_MODELS →
      (name ∈ MOBILENET_MODELS ++ VGG_MODELS ∨ name ∈ RESNET_MODELS ∨ name ∈ DENSENET_MODELS) ∧
      torchvision_backbone_and_num_features env name pretrained ≠
        Except.error (PyError.valueError (name ++ " is not supported yet."))) ∧
    (∀ (env : TorchvisionEnv) (name : String) (pretrained : Bool),
      torchvision_backbone_and_num_features env name pretrained =
        Except.error (PyError.valueError (name ++ " is not supported yet.")) →
      name ∉ TORCHVISION_MODELS ∧ (env.getattrModels name).isSome = true) := by
  have notfall : ∀ (env : TorchvisionEnv) (name : String) (pretrained : Bool),
      name ∈ TORCHVISION_MODELS →
      torchvision_backbone_and_num_features env name pretrained ≠
        Except.error (PyError.valueError (name ++ " is not supported yet.")) := by
    intro env name pretrained h
    rcases torchvision_table_split name h with h | h | h
    · exact torchvision_mobilenet_vgg_no_valueError env name pretrained _ h
    · exact torchvision_resnet_no_valueError env name pretrained _ h
    · exact torchvision_densenet_no_valueError env name pretrained _ h
  refine ⟨fun env name p h => ⟨torchvision_table_split name h, notfall env name p h⟩,
          fun env name p heq => ⟨fun hmem => notfall env name p hmem heq, ?_⟩⟩
  cases hget : env.getattrModels name with
  | none =>
    unfold torchvision_backbone_and_num_features at heq
    rw [hget] at heq
    simp at heq
  | some ctor => simp

/-- Witness for C10: the in-table part at `resnet18`, and the fall-through
part at `googlenet`, which is outside the umbrella table but present in
the concrete registry. -/
theorem torchvision_fallthrough_unreachable_witness :
    (("resnet18" ∈ MOBILENET_MODELS ++ VGG_MODELS ∨ "resnet18" ∈ RESNET_MODELS ∨
        "resnet18" ∈ DENSENET_MODELS) ∧
      torchvision_backbone_and_num_features tvSampleEnv "resnet18" true ≠
        Except.error (PyError.valueError ("resnet18" ++ " is not supported yet."))) ∧
    ("googlenet" ∉ TORCHVISION_MODELS ∧ (tvSampleEnv.getattrModels "googlenet").isSome = true) :=
  ⟨torchvision_fallthrough_unreachable.1 tvSampleEnv "resnet18" true
     (by simp [TORCHVISION_MODELS, MOBILENET_MODELS, VGG_MODELS, RESNET_MODELS, DENSENET_MODELS]),
   torchvision_fallthrough_unreachable.2 tvSampleEnv "googlenet" true rfl⟩
